import Mathlib

/-!
Verification of the data-analyst agent (files `agent.py` and `app.py`).

The development shallowly embeds the pieces the specification talks about:

* the sandbox executor `execute_python` of `agent.py` (lines 40-73) and of
  `app.py` (lines 118-174), modelled as functions of the child-process
  outcome (captured stdout, captured stderr, timeout, spawn failure);
* the chart-artifact handling of `app.py` (delete `output.png` before the
  run, report it only when it exists afterwards), modelled by explicit
  state passing of the flag "the chart file exists";
* the orchestrator loop `run_agent` of `agent.py` (lines 76-124) and the
  `on_message` loop of `app.py` (lines 300-397), modelled as recursion
  over a script of model responses (the model service is an external
  collaborator, so a run is determined by the sequence of its responses);
* the per-turn tool dispatch (`for block in response.content: if
  block.type == "tool_use": ...`), which executes the code of every
  tool-use block and pairs the result with the block's id.
-/

/-- Outcome of one child process started by `subprocess.run`: it either
completed with captured stdout and stderr, hit the 30 s timeout
(`subprocess.TimeoutExpired`; the streams of the killed child are recorded
here only to express that the code never looks at them), or the spawn
itself raised an exception. -/
inductive ProcOutcome : Type where
  | completed (stdout stderr : String)
  | timedOut (killedOut killedErr : String)
  | spawnError (msg : String)
deriving DecidableEq

/-- Python truthiness of `s.strip()`: the string is falsy exactly when
every character is whitespace. -/
def isBlank (s : String) : Bool := s.data.all Char.isWhitespace

/-- The `timeout=30` argument passed to `subprocess.run` in both
executors. -/
def timeoutSeconds : Nat := 30

/-- `execute_python` of `agent.py`, as a function of the child-process
outcome: `output = result.stdout`; if `result.stderr` is nonempty,
`output += "\n[stderr]: " + result.stderr`; return `output` unless it is
blank, in which case return `"(no output)"`; on `TimeoutExpired` return
the fixed timeout message; on any other exception return its text behind
`"[error]: "`. -/
def agentOutputText : ProcOutcome → String
  | .completed out err =>
      let output := if err = "" then out else out ++ "\n[stderr]: " ++ err
      if isBlank output then "(no output)" else output
  | .timedOut _ _ => "[error]: execution timed out"
  | .spawnError e => "[error]: " ++ e

/-- Check that the characters of the first list stand at the head of the
second list. -/
def charsStart : List Char → List Char → Bool
  | [], _ => true
  | _ :: _, [] => false
  | a :: as, b :: bs => a == b && charsStart as bs

/-- Check that the first list occurs contiguously inside the second,
Python's `pat in s`. -/
def charsHave (pat : List Char) : List Char → Bool
  | [] => pat.isEmpty
  | c :: rest => charsStart pat (c :: rest) || charsHave pat rest

/-- Python's substring test `pat in s`. -/
def strContains (s pat : String) : Bool := charsHave pat.data s.data

/-- Python's `str.lower()` over the characters of the string. -/
def lowerStr (s : String) : String := String.mk (s.data.map Char.toLower)

/-- Python's `s.split('\n')` on the character list: every occurrence of
the newline separates two pieces and empty pieces are kept. -/
def splitNl : List Char → List (List Char)
  | [] => [[]]
  | c :: rest =>
      if c = '\n' then [] :: splitNl rest
      else
        match splitNl rest with
        | [] => [[c]]
        | h :: t => (c :: h) :: t

/-- Python's `stderr.split('\n')` as a list of strings. -/
def splitLines (s : String) : List String :=
  (splitNl s.data).map (fun cs => String.mk cs)

/-- Python's `chr(10).join(lines)`. -/
def joinLines : List String → String
  | [] => ""
  | [l] => l
  | l :: rest => l ++ "\n" ++ joinLines rest

/-- The stderr filter of `app.py` lines 161-164: keep the lines of
`stderr.split('\n')` that are nonempty and whose lower-casing does not
contain `"warning"`. -/
def appStderrLines (stderr : String) : List String :=
  (splitLines stderr).filter
    (fun line => line != "" && !(strContains (lowerStr line) "warning"))

/-- `execute_python` of `app.py`, output-text part, as a function of the
child-process outcome: like `agent.py` but the error section is built
from the filtered stderr lines joined with `chr(10)` and is appended only
when some line survives the filter; the timeout and exception messages
are worded differently. -/
def appOutputText : ProcOutcome → String
  | .completed out err =>
      let output :=
        if err = "" then out
        else
          let lines := appStderrLines err
          if lines.isEmpty then out
          else out ++ "\n[stderr]: " ++ joinLines lines
      if isBlank output then "(no output)" else output
  | .timedOut _ _ => "[Error]: Code execution timed out (30s limit)"
  | .spawnError e => "[Error]: " ++ e

/-- The fixed chart filename of `app.py` (`Path(__file__).parent /
"output.png"`). -/
def chartFileName : String := "output.png"

/-- Behaviour of one attempted child run: the process outcome together
with whether the run left the chart file `output.png` on disk (a spawn
failure runs nothing, so it can write nothing; a timed-out child may have
written the file before it was killed). -/
structure ChildRun : Type where
  outcome : ProcOutcome
  writesChart : Bool
deriving DecidableEq

/-- What `execute_python` of `app.py` returns: the output text and the
optional chart path. -/
structure AppExecResult : Type where
  output : String
  chartPath : Option String
deriving DecidableEq

/-- `execute_python` of `app.py` with the chart-file state made explicit:
the argument `prevChart` says whether `output.png` exists when the call
starts; the call unlinks it if present (lines 120-122), runs the child,
and reports the chart path exactly when the file exists after the run
(line 168).  The second component of the result is the state of the chart
file after the call.  The timeout and exception branches return `None`
for the chart without looking at the file or at any partial output. -/
def appExecutePython (prevChart : Bool) (run : ChildRun) :
    AppExecResult × Bool :=
  -- `if chart_path.exists(): chart_path.unlink()`
  let afterDelete : Bool := false
  -- after the run the file exists iff this run wrote it
  let afterRun : Bool :=
    match run.outcome with
    | .spawnError _ => afterDelete
    | _ => afterDelete || run.writesChart
  match run.outcome with
  | .completed _ _ =>
      ({ output := appOutputText run.outcome,
         chartPath := if afterRun then some chartFileName else none },
       afterRun)
  | .timedOut _ _ =>
      ({ output := "[Error]: Code execution timed out (30s limit)",
         chartPath := none }, afterRun)
  | .spawnError e =>
      ({ output := "[Error]: " ++ e, chartPath := none }, afterRun)

/-- A `tool_use` content block of a model response: the model-assigned
`id`, the tool `name`, and the two arguments of the `execute_python`
schema, `code` and `goal`. -/
structure ToolUseBlock : Type where
  id : String
  name : String
  code : String
  goal : String
deriving DecidableEq

/-- One block of a model response's `content`: a text block or a
tool-use block. -/
inductive ContentBlock : Type where
  | text (s : String)
  | toolUse (t : ToolUseBlock)
deriving DecidableEq

/-- A `tool_result` entry as both loops build it: `{"type":
"tool_result", "tool_use_id": block.id, "content": result}`. -/
structure ToolResult : Type where
  tool_use_id : String
  content : String
deriving DecidableEq

/-- One model response: its `stop_reason` string and its `content`
blocks.  Both loops compare `stop_reason` with the literal
`"end_turn"`. -/
structure ModelResponse : Type where
  stopReason : String
  content : List ContentBlock
deriving DecidableEq

/-- Dispatch of one tool-use block, the body of
`if block.type == "tool_use":` in both loops: execute the `code` argument
(`execFn` abstracts `execute_python` applied to the session's data file)
and pair the output with the block's id.  Neither loop inspects
`block.name` and neither passes `goal` to the executor. -/
def processToolUse (execFn : String → String) (t : ToolUseBlock) :
    ToolResult :=
  { tool_use_id := t.id, content := execFn t.code }

/-- The `tool_results` list built by one pass of
`for block in response.content`, in both loops: one result per tool-use
block, in content order; text blocks add nothing. -/
def toolResultsFor (execFn : String → String) :
    List ContentBlock → List ToolResult
  | [] => []
  | .text _ :: rest => toolResultsFor execFn rest
  | .toolUse t :: rest => processToolUse execFn t :: toolResultsFor execFn rest

/-- The tool-use blocks of a content list, in order. -/
def toolUseBlocks : List ContentBlock → List ToolUseBlock
  | [] => []
  | .text _ :: rest => toolUseBlocks rest
  | .toolUse t :: rest => t :: toolUseBlocks rest

/-- `"".join(b.text for b in response.content if hasattr(b, "text"))`:
the concatenated text blocks, `agent.py` line 96. -/
def finalText : List ContentBlock → String
  | [] => ""
  | .text s :: rest => s ++ finalText rest
  | .toolUse _ :: rest => finalText rest

/-- Content of one entry of the `messages` list: a plain user string, an
assistant response's blocks echoed back, or a list of tool results. -/
inductive MessageContent : Type where
  | text (s : String)
  | blocks (bs : List ContentBlock)
  | results (rs : List ToolResult)
deriving DecidableEq

/-- One entry of the `messages` list: a role and a content. -/
structure Message : Type where
  role : String
  content : MessageContent
deriving DecidableEq

/-- `{"role": "assistant", "content": response.content}`. -/
def assistantMsg (content : List ContentBlock) : Message :=
  { role := "assistant", content := .blocks content }

/-- `{"role": "user", "content": tool_results}`. -/
def toolResultMsg (rs : List ToolResult) : Message :=
  { role := "user", content := .results rs }

/-- `{"role": "user", "content": question}`. -/
def userMsg (text : String) : Message :=
  { role := "user", content := .text text }

/-- Result of a run of `run_agent` in `agent.py`: the returned final
answer together with the `messages` list at return time, or the marker
that the response script ran out (the loop would still be waiting on the
model). -/
inductive AgentResult : Type where
  | answer (text : String) (messages : List Message)
  | noResponse
deriving DecidableEq

/-- The `while True` loop of `run_agent`, `agent.py` lines 86-124, run
against a script of model responses.  If the head response's
`stop_reason` equals `"end_turn"` the loop returns the concatenated text
blocks at once — it does not look at tool-use blocks.  Otherwise it
builds the tool results, appends the assistant echo and the tool-result
message, and repeats. -/
def runAgentLoop (execFn : String → String) :
    List ModelResponse → List Message → AgentResult
  | [], _ => .noResponse
  | resp :: rest, msgs =>
      if resp.stopReason = "end_turn" then
        .answer (finalText resp.content) msgs
      else
        runAgentLoop execFn rest
          (msgs ++ [assistantMsg resp.content,
                    toolResultMsg (toolResultsFor execFn resp.content)])

/-- Result of the `on_message` loop of `app.py`: normal completion with
the persisted `messages`, an `anthropic.APIError` surfaced to the user
with the `messages` persisted at that point, or script exhaustion. -/
inductive AppResult : Type where
  | finished (messages : List Message)
  | apiError (e : String) (messages : List Message)
  | noResponse
deriving DecidableEq

/-- The `while True` loop of `on_message`, `app.py` lines 338-397, run
against a script whose entries are either a model response or an
`anthropic.APIError` raised by the call.  On an error the handler shows
the message and returns without touching `messages` (lines 358-361).  On
`"end_turn"` it appends the assistant echo and finishes (lines 366-369).
Otherwise it executes the tool-use blocks, appends the assistant echo and
the tool results, persists, and repeats (lines 372-397). -/
def appLoop (execFn : String → String) :
    List (Except String ModelResponse) → List Message → AppResult
  | [], _ => .noResponse
  | .error e :: _, msgs => .apiError e msgs
  | .ok resp :: rest, msgs =>
      if resp.stopReason = "end_turn" then
        .finished (msgs ++ [assistantMsg resp.content])
      else
        appLoop execFn rest
          (msgs ++ [assistantMsg resp.content,
                    toolResultMsg (toolResultsFor execFn resp.content)])

/-- The body of `on_message` after upload handling: append the user
message (`app.py` line 336) and enter the loop. -/
def appOnMessage (execFn : String → String)
    (script : List (Except String ModelResponse))
    (msgs : List Message) (userText : String) : AppResult :=
  appLoop execFn script (msgs ++ [userMsg userText])

/-- Python's slice `s[:n]`: the first `n` characters. -/
def pyTake (s : String) (n : Nat) : String := String.mk (s.data.take n)

/-- Python's `len(s)`: the number of characters. -/
def pyLen (s : String) : Nat := s.data.length

/-- The verbose console preview of a tool result, `agent.py` line 114:
`result[:400] + "..." if len(result) > 400 else result`. -/
def cliPreview (r : String) : String :=
  if 400 < pyLen r then pyTake r 400 ++ "..." else r

/-- The UI step output, `app.py` line 381:
`output[:2000] + "..." if len(output) > 2000 else output`. -/
def uiStepOutput (o : String) : String :=
  if 2000 < pyLen o then pyTake o 2000 ++ "..." else o

/-- Rewrite the `goal` argument of every tool-use block of a content
list, leaving everything else unchanged. -/
def setGoals (f : String → String) : List ContentBlock → List ContentBlock
  | [] => []
  | .text s :: rest => .text s :: setGoals f rest
  | .toolUse t :: rest => .toolUse { t with goal := f t.goal } :: setGoals f rest

/-- A concrete executor used by closed witnesses and counterexamples: the
child completes, echoing the code on stdout with an empty stderr. -/
def exF0 : String → String :=
  fun c => agentOutputText (.completed ("ran:" ++ c ++ "\n") "")

/-! ## Helper lemmas -/

/-- Appending strings appends their character lists. -/
theorem strData_append (s t : String) : (s ++ t).data = s.data ++ t.data := by
  cases s; cases t; rfl

/-- A string that embeds the `"[stderr]: "` delimiter is never blank, so
the `"(no output)"` branch is unreachable once an error section has been
appended. -/
theorem isBlank_append_stderr (out err : String) :
    isBlank (out ++ "\n[stderr]: " ++ err) = false := by
  have h : List.all ("\n[stderr]: ").data Char.isWhitespace = false := by decide
  simp [isBlank, strData_append, List.all_append, h]

/-- Unfolding: a response whose stop reason is `"end_turn"` makes the
loop return at once, whatever its content holds. -/
theorem runAgentLoop_final (execFn : String → String)
    (resp : ModelResponse) (rest : List ModelResponse) (msgs : List Message)
    (h : resp.stopReason = "end_turn") :
    runAgentLoop execFn (resp :: rest) msgs
      = .answer (finalText resp.content) msgs := by
  simp [runAgentLoop, h]

/-- Unfolding: a response whose stop reason is not `"end_turn"` costs one
tool round-trip (assistant echo plus tool-result message) and the loop
continues. -/
theorem runAgentLoop_step (execFn : String → String)
    (resp : ModelResponse) (rest : List ModelResponse) (msgs : List Message)
    (h : resp.stopReason ≠ "end_turn") :
    runAgentLoop execFn (resp :: rest) msgs
      = runAgentLoop execFn rest
          (msgs ++ [assistantMsg resp.content,
                    toolResultMsg (toolResultsFor execFn resp.content)]) := by
  simp [runAgentLoop, h]

/-- The loop returns an answer exactly when some scripted response
carries stop reason `"end_turn"`; the presence of tool calls in a
response plays no part. -/
theorem runAgentLoop_answer_iff (execFn : String → String) :
    ∀ (script : List ModelResponse) (msgs : List Message),
      (∃ ans m, runAgentLoop execFn script msgs = .answer ans m) ↔
        ∃ r ∈ script, r.stopReason = "end_turn" := by
  intro script
  induction script with
  | nil => intro msgs; simp [runAgentLoop]
  | cons resp rest ih =>
      intro msgs
      by_cases h : resp.stopReason = "end_turn"
      · constructor
        · intro _
          exact ⟨resp, List.mem_cons_self _ _, h⟩
        · intro _
          exact ⟨finalText resp.content, msgs, runAgentLoop_final execFn resp rest msgs h⟩
      · rw [runAgentLoop_step execFn resp rest msgs h, ih]
        constructor
        · rintro ⟨r, hr, hstop⟩
          exact ⟨r, List.mem_cons_of_mem _ hr, hstop⟩
        · rintro ⟨r, hr, hstop⟩
          rcases List.mem_cons.mp hr with rfl | hr'
          · exact absurd hstop h
          · exact ⟨r, hr', hstop⟩

/-- N non-final responses followed by a final one: the loop answers with
the final response's text after exactly one assistant echo and one
tool-result message per non-final response. -/
theorem runAgentLoop_rounds (execFn : String → String) :
    ∀ (pre : List ModelResponse) (r : ModelResponse)
      (rest : List ModelResponse) (msgs : List Message),
      (∀ x ∈ pre, x.stopReason ≠ "end_turn") → r.stopReason = "end_turn" →
      ∃ extra, runAgentLoop execFn (pre ++ r :: rest) msgs
          = .answer (finalText r.content) (msgs ++ extra)
        ∧ extra.length = 2 * pre.length := by
  intro pre
  induction pre with
  | nil =>
      intro r rest msgs _ hr
      exact ⟨[], by simpa using runAgentLoop_final execFn r rest msgs hr, by simp⟩
  | cons p pre ih =>
      intro r rest msgs hpre hr
      have hp : p.stopReason ≠ "end_turn" := hpre p (List.mem_cons_self _ _)
      obtain ⟨extra, heq, hlen⟩ :=
        ih r rest
          (msgs ++ [assistantMsg p.content,
                    toolResultMsg (toolResultsFor execFn p.content)])
          (fun x hx => hpre x (List.mem_cons_of_mem _ hx)) hr
      refine ⟨[assistantMsg p.content,
               toolResultMsg (toolResultsFor execFn p.content)] ++ extra, ?_, ?_⟩
      · rw [List.cons_append, runAgentLoop_step execFn p _ msgs hp, heq,
            List.append_assoc]
      · simp [List.length_append, hlen]
        omega

/-- The tool results of one content pass are the map of the dispatch
over the tool-use blocks, in order. -/
theorem toolResults_spec (execFn : String → String)
    (content : List ContentBlock) :
    toolResultsFor execFn content
      = (toolUseBlocks content).map
          (fun t => { tool_use_id := t.id, content := execFn t.code }) := by
  induction content with
  | nil => rfl
  | cons b rest ih =>
      cases b <;> simp [toolResultsFor, toolUseBlocks, processToolUse, ih]

/-- A string longer than 400 characters is previewed at exactly 403
characters (400 kept plus the ellipsis). -/
theorem pyLen_cliPreview (s : String) (h : 400 < pyLen s) :
    pyLen (cliPreview s) = 403 := by
  have hd : (pyTake s 400 ++ "...").data = s.data.take 400 ++ ("...").data :=
    strData_append _ _
  rw [cliPreview, if_pos h]
  show (pyTake s 400 ++ "...").data.length = 403
  rw [hd, List.length_append, List.length_take]
  have h3 : ("...").data.length = 3 := by decide
  rw [h3]
  simp only [pyLen] at h
  omega

/-- The console preview genuinely shortens a 401-character output. -/
theorem cliPreview_shortens :
    cliPreview (String.mk (List.replicate 401 'a'))
      ≠ String.mk (List.replicate 401 'a') := by
  intro heq
  have h1 : pyLen (String.mk (List.replicate 401 'a')) = 401 := by
    show (List.replicate 401 'a').length = 401
    exact List.length_replicate 401 'a'
  have h2 := pyLen_cliPreview (String.mk (List.replicate 401 'a'))
    (by rw [h1]; omega)
  rw [heq, h1] at h2
  omega

/-- The contents of the tool results are exactly the untruncated executor
outputs of the tool-use blocks, in order. -/
theorem toolResults_contents (execFn : String → String)
    (content : List ContentBlock) :
    (toolResultsFor execFn content).map (fun r => r.content)
      = (toolUseBlocks content).map (fun t => execFn t.code) := by
  induction content with
  | nil => rfl
  | cons b rest ih =>
      cases b <;> simp [toolResultsFor, toolUseBlocks, processToolUse, ih]

/-! ## Claim C1 -/

/-- Claim C1, counterexample.  The claim says the loop terminates iff the
latest response carries `end_turn` AND produced zero ToolCalls.  Neither
loop inspects tool calls when deciding termination: on a response whose
stop reason is `"end_turn"` and whose content holds one tool-use block,
`run_agent` returns at once (with the tool call never executed), so the
loop terminates although the final response produced one ToolCall. -/
theorem claimC1_counterexample :
    runAgentLoop exF0
        [{ stopReason := "end_turn",
           content := [ContentBlock.toolUse
             { id := "t1", name := "execute_python",
               code := "print(1)", goal := "g" }] }] []
      = AgentResult.answer "" []
    ∧ (toolUseBlocks [ContentBlock.toolUse
         { id := "t1", name := "execute_python",
           code := "print(1)", goal := "g" }]).length = 1 := by
  decide

/-- Claim C1, amended: the loop terminates iff the latest model response
carries `"end_turn"` — tool calls in that response are ignored rather
than executed and do not keep the loop running; it terminates in exactly
one step when the first response is final, and after N tool-execution
round-trips (one assistant echo and one tool-result message each) when
the model issues N non-final responses before signaling completion. -/
theorem claimC1_amended (execFn : String → String) (msgs : List Message) :
    (∀ script : List ModelResponse,
        (∃ ans m, runAgentLoop execFn script msgs = .answer ans m) ↔
          ∃ r ∈ script, r.stopReason = "end_turn")
    ∧ (∀ (pre : List ModelResponse) (r : ModelResponse)
         (rest : List ModelResponse),
        (∀ x ∈ pre, x.stopReason ≠ "end_turn") → r.stopReason = "end_turn" →
        ∃ extra, runAgentLoop execFn (pre ++ r :: rest) msgs
            = .answer (finalText r.content) (msgs ++ extra)
          ∧ extra.length = 2 * pre.length) :=
  ⟨fun script => runAgentLoop_answer_iff execFn script msgs,
   fun pre r rest h1 h2 => runAgentLoop_rounds execFn pre r rest msgs h1 h2⟩

/-- Claim C1, witness: one non-final tool round followed by a final
response terminates with the final text after one round-trip (two
appended messages). -/
theorem claimC1_witness :
    ∃ extra, runAgentLoop exF0
        [{ stopReason := "tool_use",
           content := [ContentBlock.toolUse
             { id := "t1", name := "execute_python",
               code := "c", goal := "g" }] },
         { stopReason := "end_turn",
           content := [ContentBlock.text "done"] }] []
        = AgentResult.answer "done" extra
      ∧ extra.length = 2 :=
  (claimC1_amended exF0 []).2
    [{ stopReason := "tool_use",
       content := [ContentBlock.toolUse
         { id := "t1", name := "execute_python",
           code := "c", goal := "g" }] }]
    { stopReason := "end_turn", content := [ContentBlock.text "done"] }
    []
    (by intro x hx; rw [List.mem_singleton] at hx; subst hx; decide)
    rfl

/-! ## Claim C2 -/

/-- Claim C2, counterexample.  With stdout `" \n "` (whitespace only,
not empty) and empty stderr the claim demands the output text be the
stdout itself; the code's `output.strip()` truthiness test turns every
whitespace-only combination into the `"(no output)"` sentinel, so the
output is neither the stdout nor contains it. -/
theorem claimC2_counterexample :
    agentOutputText (.completed " \n " "") = "(no output)"
    ∧ agentOutputText (.completed " \n " "") ≠ " \n " := by
  decide

/-- Claim C2, amended: the output text is stdout followed by the
delimited error section exactly when stderr is non-empty; when stderr is
empty the output text is stdout itself provided stdout has some
non-whitespace character, and it is the sentinel `"(no output)"` when the
combined text is blank — in particular (both executors) when stdout is
empty and there is no error content. -/
theorem claimC2_amended (out err : String) :
    (err ≠ "" →
        agentOutputText (.completed out err) = out ++ "\n[stderr]: " ++ err)
    ∧ (err = "" → isBlank out = false →
        agentOutputText (.completed out err) = out)
    ∧ (err = "" → isBlank out = true →
        agentOutputText (.completed out err) = "(no output)"
        ∧ appOutputText (.completed out err) = "(no output)") := by
  refine ⟨fun h => ?_, fun h hb => ?_, fun h hb => ?_⟩
  · simp [agentOutputText, h, isBlank_append_stderr]
  · subst h; simp [agentOutputText, hb]
  · subst h; exact ⟨by simp [agentOutputText, hb], by simp [appOutputText, hb]⟩

/-- Claim C2, witness: a snippet printing `42` with a raised fault gets
the delimited error section; a clean snippet printing `100` returns its
stdout exactly; a silent clean snippet returns the sentinel. -/
theorem claimC2_witness :
    agentOutputText (.completed "42\n" "boom")
        = "42\n" ++ "\n[stderr]: " ++ "boom"
    ∧ agentOutputText (.completed "100\n" "") = "100\n"
    ∧ agentOutputText (.completed "" "") = "(no output)" :=
  ⟨(claimC2_amended "42\n" "boom").1 (by decide),
   (claimC2_amended "100\n" "").2.1 rfl (by decide),
   ((claimC2_amended "" "").2.2 rfl (by decide)).1⟩

/-! ## Claim C3 -/

/-- Claim C3: on `subprocess.TimeoutExpired` both executors return the
fixed timeout message — the result does not depend on anything the
killed child wrote to its streams — and the `app.py` executor reports no
chart path on timeout, whatever the killed child left on disk; the
timeout constant is 30 seconds. -/
theorem claimC3_timeout (killedOut killedErr : String)
    (prevChart w : Bool) :
    agentOutputText (.timedOut killedOut killedErr)
        = "[error]: execution timed out"
    ∧ (appExecutePython prevChart ⟨.timedOut killedOut killedErr, w⟩).1
        = { output := "[Error]: Code execution timed out (30s limit)",
            chartPath := none }
    ∧ timeoutSeconds = 30 :=
  ⟨rfl, rfl, rfl⟩

/-! ## Claim C4 -/

/-- Claim C4: for every assistant turn, the orchestrator builds exactly
one ToolResult per tool-use block, in the same relative order as the
blocks appear in the response content, each carrying the block's
model-assigned id unchanged and the executor output of its code; text
blocks contribute nothing. -/
theorem claimC4_one_result_per_call (execFn : String → String)
    (content : List ContentBlock) :
    toolResultsFor execFn content
      = (toolUseBlocks content).map
          (fun t => { tool_use_id := t.id, content := execFn t.code }) :=
  toolResults_spec execFn content

/-! ## Claim C5 -/

/-- Claim C5: the `app.py` executor reports a chart exactly when this
run's child wrote the fixed chart filename — the incoming state of the
chart file is irrelevant because the file is unlinked before the run —
and a second run whose child does not regenerate the chart reports none,
whatever the first run left behind. -/
theorem claimC5_chart_detection :
    (∀ (prevChart : Bool) (run : ChildRun) (out err : String),
        run.outcome = .completed out err →
        (appExecutePython prevChart run).1.chartPath
          = if run.writesChart then some chartFileName else none)
    ∧ (∀ (prevChart : Bool) (run1 run2 : ChildRun) (out err : String),
        run2.outcome = .completed out err → run2.writesChart = false →
        (appExecutePython (appExecutePython prevChart run1).2 run2).1.chartPath
          = none) := by
  constructor
  · intro prev run out err h
    obtain ⟨o, w⟩ := run
    subst h
    simp [appExecutePython]
  · intro prev r1 r2 out err h hw
    obtain ⟨o, w⟩ := r2
    subst h
    subst hw
    simp [appExecutePython]

/-- Claim C5, witness: a chart-writing run reports the chart path even
when a stale file existed beforehand, and a following run that does not
regenerate it reports none. -/
theorem claimC5_witness :
    (appExecutePython true ⟨.completed "x\n" "", true⟩).1.chartPath
        = some chartFileName
    ∧ (appExecutePython (appExecutePython false ⟨.completed "x\n" "", true⟩).2
        ⟨.completed "y\n" "", false⟩).1.chartPath = none := by
  constructor
  · have h := claimC5_chart_detection.1 true ⟨.completed "x\n" "", true⟩ "x\n" "" rfl
    simpa using h
  · exact claimC5_chart_detection.2 false ⟨.completed "x\n" "", true⟩
      ⟨.completed "y\n" "", false⟩ "y\n" "" rfl rfl

/-! ## Claim C6 -/

/-- Claim C6, counterexample.  The claim says a tool call whose name is
not `"execute_python"` gets a ToolResult with a descriptive error string
instead of being executed.  Neither loop ever reads `block.name`: a call
named `"not_a_tool"` is dispatched to the executor and its result is the
ordinary execution output — identical to that of the correctly named
call — not an error string. -/
theorem claimC6_counterexample :
    processToolUse exF0
        { id := "t1", name := "not_a_tool", code := "print(1)", goal := "g" }
      = { tool_use_id := "t1", content := "ran:print(1)\n" }
    ∧ processToolUse exF0
        { id := "t1", name := "execute_python",
          code := "print(1)", goal := "g" }
      = { tool_use_id := "t1", content := "ran:print(1)\n" } := by
  decide

/-- Claim C6, amended: the dispatcher performs no tool-name validation —
the dispatch result is invariant under the name, every tool-use block is
executed regardless of its name — while each tool-use block still
receives exactly one result. -/
theorem claimC6_amended :
    (∀ (execFn : String → String) (t : ToolUseBlock) (n1 n2 : String),
        processToolUse execFn { t with name := n1 }
          = processToolUse execFn { t with name := n2 })
    ∧ (∀ (execFn : String → String) (content : List ContentBlock),
        (toolResultsFor execFn content).length
          = (toolUseBlocks content).length) := by
  constructor
  · intro _ _ _ _; rfl
  · intro execFn content
    induction content with
    | nil => rfl
    | cons b rest ih => cases b <;> simp [toolResultsFor, toolUseBlocks, ih]

/-! ## Claim C7 -/

/-- Claim C7, counterexample.  The two executors are not extensionally
equal: on a child that completes with stdout `"x\n"` and stderr
`"FutureWarning: blah"`, the `agent.py` executor appends the full stderr
section while the `app.py` executor drops the line (it contains
`"warning"` case-insensitively) and returns the bare stdout. -/
theorem claimC7_counterexample :
    agentOutputText (.completed "x\n" "FutureWarning: blah")
        = "x\n\n[stderr]: FutureWarning: blah"
    ∧ appOutputText (.completed "x\n" "FutureWarning: blah") = "x\n"
    ∧ agentOutputText (.completed "x\n" "FutureWarning: blah")
        ≠ appOutputText (.completed "x\n" "FutureWarning: blah") := by
  decide

/-- Claim C7, amended: the duplicated executors agree on every child
outcome that completes with empty stderr; they diverge when stderr is
non-empty (the `app.py` variant filters warning lines and rejoins
without a trailing newline) and their timeout messages differ. -/
theorem claimC7_amended (out : String) :
    agentOutputText (.completed out "") = appOutputText (.completed out "")
    ∧ agentOutputText (.timedOut "" "") ≠ appOutputText (.timedOut "" "") := by
  constructor
  · simp [agentOutputText, appOutputText]
  · decide

/-! ## Claim C8 -/

/-- Claim C8: when the model call raises (`anthropic.APIError` in
`app.py`; uncaught in `agent.py`, where it propagates to the caller and
the local `messages` list is discarded), the failure is surfaced, the
`messages` list is exactly what it was before the failed call, and no
retry happens — the run's outcome does not depend on any scripted
response after the failing one. -/
theorem claimC8_model_error (execFn : String → String) (e : String)
    (msgs : List Message) (pre : List (Except String ModelResponse))
    (rest rest' : List (Except String ModelResponse)) :
    appLoop execFn (.error e :: rest) msgs = .apiError e msgs
    ∧ appLoop execFn (pre ++ .error e :: rest) msgs
        = appLoop execFn (pre ++ .error e :: rest') msgs := by
  refine ⟨rfl, ?_⟩
  induction pre generalizing msgs with
  | nil => rfl
  | cons x pre ih =>
      cases x with
      | error e' => rfl
      | ok resp =>
          by_cases h : resp.stopReason = "end_turn"
          · simp [appLoop, h]
          · simp only [List.cons_append, appLoop, h, if_neg h]
            exact ih _

/-! ## Claim C9 -/

/-- Claim C9, counterexample.  Two tool calls identical except for their
goal strings yield identical ToolResults, but the subsequent
conversation state is not identical: the assistant echo appended to
`messages` contains the tool-use block verbatim, goal included, so the
two runs' final message lists differ. -/
theorem claimC9_counterexample :
    toolResultsFor exF0
        [ContentBlock.toolUse
          { id := "t1", name := "execute_python", code := "c", goal := "goal A" }]
      = toolResultsFor exF0
        [ContentBlock.toolUse
          { id := "t1", name := "execute_python", code := "c", goal := "goal B" }]
    ∧ runAgentLoop exF0
        [{ stopReason := "tool_use",
           content := [ContentBlock.toolUse
             { id := "t1", name := "execute_python",
               code := "c", goal := "goal A" }] },
         { stopReason := "end_turn", content := [ContentBlock.text "done"] }] []
      ≠ runAgentLoop exF0
        [{ stopReason := "tool_use",
           content := [ContentBlock.toolUse
             { id := "t1", name := "execute_python",
               code := "c", goal := "goal B" }] },
         { stopReason := "end_turn", content := [ContentBlock.text "done"] }] [] := by
  decide

/-- Claim C9, amended: the goal argument never reaches the executor —
the dispatch of a tool-use block and the whole tool-result list are
invariant under any rewriting of goal strings — but the conversation
state is not goal-independent, because the assistant echo preserves the
model's content verbatim, goal included. -/
theorem claimC9_amended :
    (∀ (execFn : String → String) (t : ToolUseBlock) (g1 g2 : String),
        processToolUse execFn { t with goal := g1 }
          = processToolUse execFn { t with goal := g2 })
    ∧ (∀ (execFn f : String → String) (content : List ContentBlock),
        toolResultsFor execFn (setGoals f content)
          = toolResultsFor execFn content) := by
  constructor
  · intro _ _ _ _; rfl
  · intro execFn f content
    induction content with
    | nil => rfl
    | cons b rest ih =>
        cases b <;> simp [setGoals, toolResultsFor, processToolUse, ih]

/-! ## Claim C10 -/

/-- Claim C10: the ToolResult contents appended to the conversation and
sent back to the model are the full executor outputs — the round-trip
step appends exactly the assistant echo and the untruncated tool
results, while `cliPreview` (the 400-character console preview) and
`uiStepOutput` (the 2000-character UI step output) appear only in the
display path; concretely, a 401-character output is shortened by the
console preview yet reaches the tool-result content whole. -/
theorem claimC10_full_content (execFn : String → String)
    (resp : ModelResponse) (rest : List ModelResponse) (msgs : List Message)
    (h : resp.stopReason ≠ "end_turn") :
    runAgentLoop execFn (resp :: rest) msgs
      = runAgentLoop execFn rest
          (msgs ++ [assistantMsg resp.content,
                    toolResultMsg (toolResultsFor execFn resp.content)])
    ∧ (toolResultsFor execFn resp.content).map (fun r => r.content)
        = (toolUseBlocks resp.content).map (fun t => execFn t.code)
    ∧ (cliPreview (String.mk (List.replicate 401 'a'))
          ≠ String.mk (List.replicate 401 'a')
        ∧ toolResultsFor (fun _ => String.mk (List.replicate 401 'a'))
            [ContentBlock.toolUse
              { id := "t1", name := "execute_python", code := "c", goal := "g" }]
          = [{ tool_use_id := "t1",
               content := String.mk (List.replicate 401 'a') }]) := by
  refine ⟨runAgentLoop_step execFn resp rest msgs h,
          toolResults_contents execFn resp.content, cliPreview_shortens, rfl⟩

/-- Claim C10, witness: a non-final response advances the loop by the
full-content round-trip step. -/
theorem claimC10_witness :
    runAgentLoop exF0
        [{ stopReason := "tool_use",
           content := [ContentBlock.toolUse
             { id := "t1", name := "execute_python",
               code := "c", goal := "g" }] }] []
      = runAgentLoop exF0 []
          ([] ++ [assistantMsg
                    [ContentBlock.toolUse
                      { id := "t1", name := "execute_python",
                        code := "c", goal := "g" }],
                  toolResultMsg
                    (toolResultsFor exF0
                      [ContentBlock.toolUse
                        { id := "t1", name := "execute_python",
                          code := "c", goal := "g" }])]) :=
  (claimC10_full_content exF0
    { stopReason := "tool_use",
      content := [ContentBlock.toolUse
        { id := "t1", name := "execute_python", code := "c", goal := "g" }] }
    [] [] (by decide)).1
